import Mathlib

/-
Verification of the rendering-state core of `phy` (src/phy/plot/_vispy_utils.py):
the `PanZoom` transform and the `_BakeVisual` / `BaseSpikeVisual` dirty-tracked
bake pipeline.

The Python source is shallowly embedded:
* Python `float` values are modelled as real numbers (`ℝ`).
* Attribute names are `String`; Python's `sorted` on strings compares code
  points, modelled by the lexicographic order on `String.data : List Char`.
* In-place object mutation is modelled by explicit state passing: every
  method takes the object state and returns the updated state.
* Python `assert` failure is modelled as an error value returned together
  with the state the object holds at the moment the assert fires (an
  `AssertionError` aborts the method but earlier field writes remain).
* The dynamic `getattr(self, '_bake_' + name)` dispatch is modelled by a
  routine table `String → Option (BakeVisual → BakeVisual)`; the visual
  state that routines may read and write is the tracked bake state itself.
  The sequence of routine invocations performed by a bake pass is returned
  explicitly as a trace, mirroring the order of the dynamic calls.
* GPU calls (`gloo`, `program.draw`, `canvas.connect`, `canvas.update`)
  have no effect on the modelled state; whether `program.draw` was issued
  is returned as an explicit flag.
-/

namespace Phy

/-- Lexicographic comparison of strings by code points, as used by Python's
`sorted` on `str` (src line 438 sorts the dirty-name list with it). Lean's
builtin `String` order is not kernel-reducible, so the comparison is made on
the underlying character list, whose order is code-point lexicographic. -/
def strLe (a b : String) : Bool := decide (a.data ≤ b.data)

/-- Python `sorted(names)`: the stable lexicographic sort of a name list.
For strings, elements comparing equal are identical, so any sorting
algorithm yields the list Python's `sorted` returns. -/
def sortNames (l : List String) : List String :=
  l.insertionSort (fun a b => strLe a b = true)

/-- Python `np.unique` on a list of integers: sorted distinct values
(src line 522, via `_unique`). -/
def uniqueInts (l : List ℤ) : List ℤ :=
  (l.insertionSort (fun a b => a ≤ b)).dedup

instance strLeIsTrans : IsTrans String (fun a b => strLe a b = true) := by
  constructor
  intro a b c hab hbc
  simp only [strLe, decide_eq_true_eq] at *
  exact le_trans hab hbc

instance strLeIsTotal : IsTotal String (fun a b => strLe a b = true) := by
  constructor
  intro a b
  simp only [strLe, decide_eq_true_eq]
  exact le_total a.data b.data

/-- State of `_BakeVisual` (src lines 395-451): the ordered dirty-name list
`self._to_bake` and the empty flag `self._empty`.  The GPU program handle
carries no modelled state. -/
structure BakeVisual where
  to_bake : List String
  empty : Bool
deriving DecidableEq

/-- Embeds `_BakeVisual.set_to_bake(*bakes)` (src lines 421-424): append each
name not already present (idempotent marking, insertion order kept). -/
def BakeVisual.set_to_bake (v : BakeVisual) (bakes : List String) : BakeVisual :=
  bakes.foldl
    (fun v bake =>
      if bake ∈ v.to_bake then v else { v with to_bake := v.to_bake ++ [bake] })
    v

/-- Embeds the `empty` property setter (src lines 416-419). -/
def BakeVisual.set_empty (v : BakeVisual) (value : Bool) : BakeVisual :=
  { v with empty := value }

/-- The table of per-name bake routines a concrete visual declares: the model
of dynamic `hasattr(self, '_bake_' + name)` / `getattr` dispatch
(src lines 440-442).  `none` means the visual declares no routine for the
name.  A routine may mutate the visual state, including the dirty list. -/
def Routines : Type := String → Option (BakeVisual → BakeVisual)

/-- The bake loop body (src lines 438-442): walk the sorted name snapshot,
invoke the declared routine of each name on the current state, skip names
with no routine.  Also returns the trace of names whose routine was
invoked, in invocation order. -/
def bakeAux (r : Routines) : List String → BakeVisual → BakeVisual × List String
  | [], v => (v, [])
  | n :: ns, v =>
    match r n with
    | some f =>
      let p := bakeAux r ns (f v)
      (p.1, n :: p.2)
    | none => bakeAux r ns v

/-- Embeds `_BakeVisual._bake` (src lines 426-444).  If the visual is empty it
returns at once (Python returns `None`, modelled as the `none` result).
Otherwise `n_bake` is the dirty count taken before the loop, the loop runs
over `sorted(self._to_bake)` (a snapshot: marks made by routines during the
loop do not extend it), then `self._to_bake = []` unconditionally replaces
the dirty list, and `n_bake > 0` is returned.  Result: (new state,
invocation trace, returned value). -/
def bake (r : Routines) (v : BakeVisual) : BakeVisual × List String × Option Bool :=
  if v.empty then (v, [], none)
  else
    let n_bake := v.to_bake.length
    let p := bakeAux r (sortNames v.to_bake) v
    ({ p.1 with to_bake := [] }, p.2, some (decide (0 < n_bake)))

/-- Embeds `_BakeVisual.draw` (src lines 446-451): bake, then issue the GPU
draw call only if the visual is not empty (the flag read after baking).
Result: (new state, bake invocation trace, whether a draw call was issued). -/
def draw (r : Routines) (v : BakeVisual) : BakeVisual × List String × Bool :=
  let p := bake r v
  if p.1.empty then (p.1, p.2.1, false) else (p.1, p.2.1, true)

/-- A numeric array as far as the spike-visual setters inspect it: its shape.
`rows` is `arr.shape[0]`, `ndim` is the shape length. -/
structure NDArray where
  shape : List ℕ
deriving DecidableEq

/-- Python `arr.shape[0]`. -/
def NDArray.rows (a : NDArray) : ℕ := a.shape.headD 0

/-- Python `arr.ndim`. -/
def NDArray.ndim (a : NDArray) : ℕ := a.shape.length

/-- The failure an attribute setter's violated `assert` raises; the spec calls
this condition `ShapeMismatch`. -/
inductive SetterErr where
  | shapeMismatch
deriving DecidableEq

/-- State of `BaseSpikeVisual` (src lines 454-547).  `spike_clusters` is kept
as data (a cluster id per spike) because `cluster_ids` derives from its
values; `masks` and `cluster_colors` are kept as shapes, which is all the
setters inspect.  `n_channels` is established by subclasses outside this
file and is a plain field here. -/
structure SpikeVisual where
  base : BakeVisual
  n_spikes : Option ℕ
  n_channels : ℕ
  spike_clusters : Option (List ℤ)
  spike_ids : Option (List ℕ)
  masks : Option NDArray
  cluster_colors : Option NDArray
deriving DecidableEq

/-- Marking on the inherited dirty list (`self.set_to_bake(...)`). -/
def SpikeVisual.set_to_bake (v : SpikeVisual) (bakes : List String) : SpikeVisual :=
  { v with base := v.base.set_to_bake bakes }

/-- Embeds `_set_or_assert_n_spikes` (src lines 467-472): if `n_spikes` is
`None` set it from the array's first dimension, then assert the array has
`n_spikes` rows.  Returns the (possibly mutated) state and whether the
assert passed. -/
def SpikeVisual.set_or_assert_n_spikes (v : SpikeVisual) (arr : NDArray) :
    SpikeVisual × Bool :=
  let v' := match v.n_spikes with
    | none => { v with n_spikes := some arr.rows }
    | some _ => v
  (v', decide (some arr.rows = v'.n_spikes))

/-- Embeds the `masks` setter (src lines 492-500): row-count check, `ndim == 2`
check, full-shape check against `(n_spikes, n_channels)`, and only then the
store and the dirty mark.  A failed assert aborts with the state as mutated
so far. -/
def SpikeVisual.set_masks (v : SpikeVisual) (value : NDArray) :
    SpikeVisual × Option SetterErr :=
  let p := v.set_or_assert_n_spikes value
  if p.2 = false then (p.1, some .shapeMismatch)
  else if value.ndim ≠ 2 then (p.1, some .shapeMismatch)
  else if value.shape ≠ [p.1.n_spikes.getD 0, p.1.n_channels] then
    (p.1, some .shapeMismatch)
  else
    let v' := { p.1 with masks := some value }
    (v'.set_to_bake ["spikes"], none)

/-- Embeds the `spike_ids` property getter (src lines 502-508): if unset it
assigns `np.arange(n_spikes)` to the field and returns it (a getter that
mutates).  The source would fail on `n_spikes is None`; that defined-only
case is modelled with `getD 0`. -/
def SpikeVisual.spike_ids_prop (v : SpikeVisual) : SpikeVisual × List ℕ :=
  match v.spike_ids with
  | some ids => (v, ids)
  | none =>
    let ids := List.range (v.n_spikes.getD 0)
    ({ v with spike_ids := some ids }, ids)

/-- Embeds the `cluster_ids` property (src lines 519-522):
`_unique(self.spike_clusters[self.spike_ids])`.  Indexing is modelled with
a default for out-of-range indices (the source would raise there). -/
def SpikeVisual.cluster_ids_prop (v : SpikeVisual) : SpikeVisual × List ℤ :=
  let p := v.spike_ids_prop
  (p.1, uniqueInts (p.2.map (fun i => (p.1.spike_clusters.getD []).getD i 0)))

/-- Embeds the `n_clusters` property (src lines 524-526). -/
def SpikeVisual.n_clusters_prop (v : SpikeVisual) : SpikeVisual × ℕ :=
  let p := v.cluster_ids_prop
  (p.1, p.2.length)

/-- Embeds the `cluster_colors` setter (src lines 533-537).  NOTE the source
order: the value is STORED first (`self._cluster_colors = _as_array(value)`),
and only then `assert len(self._cluster_colors) == self.n_clusters` runs;
on mismatch the stored value remains mutated while the dirty mark is
skipped. -/
def SpikeVisual.set_cluster_colors (v : SpikeVisual) (value : NDArray) :
    SpikeVisual × Option SetterErr :=
  let v1 := { v with cluster_colors := some value }
  let p := v1.n_clusters_prop
  if value.rows ≠ p.2 then (p.1, some .shapeMismatch)
  else (p.1.set_to_bake ["color"], none)

/-- A `gloo.Program` as far as `PanZoom` writes it: the two uniforms it
pushes. -/
structure GLProgram where
  u_pan : ℝ × ℝ
  u_zoom : ℝ × ℝ

/-- State of `PanZoom` (src lines 70-388).  `canvas_attached` models
`self._canvas is not None`; `width`, `height` and `canvas_aspect` are the
attachment-derived fields; `u_pan`/`u_zoom` are the cached uniform values;
`programs` the registered programs. -/
structure PanZoom where
  aspect : Option ℝ
  pan : ℝ × ℝ
  zoom : ℝ
  zmin : ℝ
  zmax : ℝ
  zoom_to_pointer : Bool
  n_rows : ℕ
  canvas_attached : Bool
  canvas_aspect : ℝ × ℝ
  width : ℝ
  height : ℝ
  u_pan : ℝ × ℝ
  u_zoom : ℝ × ℝ
  programs : List GLProgram

/-- Embeds `PanZoom.__init__` (src lines 105-148): every argument is stored
verbatim; `zoom_to_pointer` starts true, `n_rows` 1, unattached with unit
canvas fields, `u_pan = pan`, `u_zoom = (zoom, zoom)`, no programs. -/
def PanZoom.init (aspect : Option ℝ) (pan : ℝ × ℝ) (zoom zmin zmax : ℝ) : PanZoom :=
  { aspect := aspect
    pan := pan
    zoom := zoom
    zmin := zmin
    zmax := zmax
    zoom_to_pointer := true
    n_rows := 1
    canvas_attached := false
    canvas_aspect := (1, 1)
    width := 1
    height := 1
    u_pan := pan
    u_zoom := (zoom, zoom)
    programs := [] }

/-- The per-axis aspect factor of src lines 207-209 and 380-382:
`1.0` when `self._aspect is None`, else `self._canvas_aspect * self._aspect`
(the source's scalar `1.0` broadcasts to both axes). -/
def PanZoom.effAspect (v : PanZoom) : ℝ × ℝ :=
  match v.aspect with
  | some a => (v.canvas_aspect.1 * a, v.canvas_aspect.2 * a)
  | none => (1, 1)

/-- Embeds the `pan` setter (src lines 186-192): store, cache the uniform, and
push `u_pan` to every registered program. -/
def PanZoom.set_pan (v : PanZoom) (value : ℝ × ℝ) : PanZoom :=
  { v with
    pan := value
    u_pan := value
    programs := v.programs.map (fun p => { p with u_pan := value }) }

/-- Embeds the `zoom` setter (src lines 199-213): clamp into `[zmin, zmax]`
via `max(min(value, zmax), zmin)`; if unattached return at once; else
recompute the effective zoom uniform and push it to every program. -/
noncomputable def PanZoom.set_zoom (v : PanZoom) (value : ℝ) : PanZoom :=
  let v' := { v with zoom := max (min value v.zmax) v.zmin }
  if v'.canvas_attached = false then v'
  else
    let a := v'.effAspect
    let uz := (v'.zoom * a.1, v'.zoom * a.2)
    { v' with
      u_zoom := uz
      programs := v'.programs.map (fun p => { p with u_zoom := uz }) }

/-- Embeds the `zmin` setter (src lines 220-223): clamp to at most the current
`zmax`. -/
noncomputable def PanZoom.set_zmin (v : PanZoom) (value : ℝ) : PanZoom :=
  { v with zmin := min value v.zmax }

/-- Embeds the `zmax` setter (src lines 230-233): clamp to at least the
current `zmin`. -/
noncomputable def PanZoom.set_zmax (v : PanZoom) (value : ℝ) : PanZoom :=
  { v with zmax := max value v.zmin }

/-- Embeds `_normalize_grid` (src lines 255-273): scale the pixel position to
`[0,1)` per axis, multiply by `n_rows`, reduce modulo 1 (Python float `% 1`
is `Int.fract`), remap to `[-1,1]` within the cell, divide by `n_rows`. -/
noncomputable def PanZoom.normalize_grid (v : PanZoom) (pos : ℝ × ℝ) : ℝ × ℝ :=
  let n : ℝ := (v.n_rows : ℝ)
  let fx := Int.fract (pos.1 / v.width * n)
  let fy := Int.fract (pos.2 / v.height * n)
  ((-(1 - 2 * fx)) / n, (-(1 - 2 * fy)) / n)

/-- Embeds `on_mouse_wheel` (src lines 292-317).  `delta` is the wheel's
`event.delta[1]`.  Locals mirror the source: `dx`, the grid-normalized
pointer, the pre-zoom pan and zoom, the candidate zoom
`zoom * exp(2.5 * dx)`; the zoom setter is applied (clamping); then, when
`zoom_to_pointer` is set, the pan setter receives the correction computed
from the UNCLAMPED locals scaled per axis by the aspect factor.  Source
note: with `self._aspect is None` the handler would fail at `aspect[0]`;
the model takes the broadcast value `(1, 1)` there (default aspect is 1.0,
so the branch is not exercised). -/
noncomputable def PanZoom.on_mouse_wheel (v : PanZoom) (delta : ℝ) (pos : ℝ × ℝ) :
    PanZoom :=
  let dx := Real.sign delta * 0.05
  let g := v.normalize_grid pos
  let panOld := v.pan
  let z := v.zoom
  let zNew := z * Real.exp (2.5 * dx)
  let v' := v.set_zoom zNew
  if v'.zoom_to_pointer then
    let a := v'.effAspect
    let zx := z * a.1
    let zy := z * a.2
    let zxn := zNew * a.1
    let zyn := zNew * a.2
    v'.set_pan (panOld.1 - g.1 * (1 / zx - 1 / zxn),
                panOld.2 + g.2 * (1 / zy - 1 / zyn))
  else v'

/-- Embeds `PanZoom.add` for one program (src lines 356-365): append it and
set its `u_zoom` and `u_pan` uniforms from the cached values. -/
def PanZoom.add (v : PanZoom) (program : GLProgram) : PanZoom :=
  { v with
    programs := v.programs ++ [{ program with u_zoom := v.u_zoom, u_pan := v.u_pan }] }

/-- Embeds `PanZoom.attach` (src lines 367-388): bind the canvas and its size,
recompute the canvas aspect correction (landscape vs portrait branch),
recompute the cached effective zoom uniform from the stored zoom — and
register event handlers (no modelled state).  No program uniform is
written here. -/
noncomputable def PanZoom.attach (v : PanZoom) (size : ℝ × ℝ) : PanZoom :=
  let v1 := { v with canvas_attached := true, width := size.1, height := size.2 }
  let ar := v1.width / v1.height
  let ca : ℝ × ℝ := if 1 < ar then (1 / ar, 1) else (1, ar)
  let v2 := { v1 with canvas_aspect := ca }
  let a := v2.effAspect
  { v2 with u_zoom := (v2.zoom * a.1, v2.zoom * a.2) }

/-- How the spec reads the wheel handler's pan correction (C7): the same
formula as the source but with `zoom_new` taken as the post-`set_zoom`
stored zoom, i.e. the CLAMPED value, aspect-corrected. -/
noncomputable def specWheelPan (v : PanZoom) (delta : ℝ) (pos : ℝ × ℝ) : ℝ × ℝ :=
  let dx := Real.sign delta * 0.05
  let g := v.normalize_grid pos
  let z := v.zoom
  let zNewStored := (v.set_zoom (z * Real.exp (2.5 * dx))).zoom
  let a := v.effAspect
  (v.pan.1 - g.1 * (1 / (z * a.1) - 1 / (zNewStored * a.1)),
   v.pan.2 + g.2 * (1 / (z * a.2) - 1 / (zNewStored * a.2)))

/-- Routine table for the C1 counterexample: the routine of name `"a"` marks
the fresh name `"z"` while the bake pass is processing. -/
def rtC1 : Routines :=
  fun n => if n = "a" then some (fun v => v.set_to_bake ["z"]) else none

/-- Visual for the C1 counterexample: non-empty, name `"a"` marked. -/
def bvC1 : BakeVisual := { to_bake := ["a"], empty := false }

/-- Routine table declaring a (no-op on state) routine for every name. -/
def rtAll : Routines := fun _ => some (fun v => v)

/-- Routine table declaring a routine only for name `"a"`. -/
def rtOnlyA : Routines := fun n => if n = "a" then some (fun v => v) else none

/-- Visual for the C5 witness: the empty visual with pending marks, in
non-sorted insertion order. -/
def bvC5e : BakeVisual := { to_bake := ["b", "a"], empty := true }

/-- Visual for the C6 scenario: fresh non-empty visual on which `"color"` was
marked, then `"spikes"`. -/
def bvC6 : BakeVisual :=
  (BakeVisual.set_to_bake { to_bake := [], empty := false } ["color"]).set_to_bake
    ["spikes"]

/-- Spike visual for the C2 counterexample: 2 spikes in one cluster, a
previously stored one-row color array, clean dirty list. -/
def svC2 : SpikeVisual :=
  { base := { to_bake := [], empty := false }
    n_spikes := some 2
    n_channels := 1
    spike_clusters := some [0, 0]
    spike_ids := some [0, 1]
    masks := none
    cluster_colors := some { shape := [1, 4] } }

/-- Spike visual for the C2 witness, with the spec's scenario-4 numbers: the
established row count is 50. -/
def svMasks : SpikeVisual :=
  { base := { to_bake := [], empty := false }
    n_spikes := some 50
    n_channels := 3
    spike_clusters := some [0]
    spike_ids := some [0]
    masks := none
    cluster_colors := none }

/-- Transform for the C3 scenario-1 state: `zoom=1.0, zmin=0.1, zmax=10.0`. -/
noncomputable def pzScenario1 : PanZoom := PanZoom.init (some 1) (0, 0) 1 (1 / 10) 10

/-- Transform for the C7 counterexample: attached, unit canvas, single grid
row, `zoom = zmax = 1` so the wheel's zoom-in candidate gets clamped. -/
noncomputable def pzC7 : PanZoom :=
  { aspect := some 1
    pan := (0, 0)
    zoom := 1
    zmin := 1 / 2
    zmax := 1
    zoom_to_pointer := true
    n_rows := 1
    canvas_attached := true
    canvas_aspect := (1, 1)
    width := 1
    height := 1
    u_pan := (0, 0)
    u_zoom := (1, 1)
    programs := [] }

/-- Transform for the C8 counterexample: attached to a 2-by-2 canvas with an
EVEN grid (`n_rows = 2`), wide zoom bounds. -/
noncomputable def pzC8 : PanZoom :=
  { aspect := some 1
    pan := (0, 0)
    zoom := 1
    zmin := 1 / 100000
    zmax := 100000
    zoom_to_pointer := true
    n_rows := 2
    canvas_attached := true
    canvas_aspect := (1, 1)
    width := 2
    height := 2
    u_pan := (0, 0)
    u_zoom := (1, 1)
    programs := [] }

/-- Transform for the C8 witness: attached, odd grid (`n_rows = 1`). -/
noncomputable def pzC8w : PanZoom :=
  { aspect := some 1
    pan := (3, 4)
    zoom := 1
    zmin := 1 / 100000
    zmax := 100000
    zoom_to_pointer := true
    n_rows := 1
    canvas_attached := true
    canvas_aspect := (1, 1)
    width := 2
    height := 2
    u_pan := (3, 4)
    u_zoom := (1, 1)
    programs := [] }

/-- Fresh transform for the C9 counterexample, with easy bounds. -/
def pzC9 : PanZoom := PanZoom.init (some 1) (0, 0) 1 0 10

/-- A program handle with arbitrary initial uniforms. -/
def progC9 : GLProgram := { u_pan := (5, 5), u_zoom := (7, 7) }

/-- One call to a zoom-bound setter (the spec's `set_zoom_bounds` pair maps
to the two property setters `zmin` and `zmax`). -/
inductive BoundsCall where
  | setZmin (value : ℝ)
  | setZmax (value : ℝ)

/-- Apply one zoom-bound setter call. -/
noncomputable def applyBoundsCall (v : PanZoom) : BoundsCall → PanZoom
  | .setZmin x => v.set_zmin x
  | .setZmax x => v.set_zmax x

/-- Apply a sequence of zoom-bound setter calls in order. -/
noncomputable def applyBoundsCalls (v : PanZoom) (l : List BoundsCall) : PanZoom :=
  l.foldl applyBoundsCall v

theorem bakeAux_trace (r : Routines) (l : List String) (v : BakeVisual) :
    (bakeAux r l v).2 = l.filter (fun n => (r n).isSome) := by
  induction l generalizing v with
  | nil => rfl
  | cons n ns ih =>
    simp only [bakeAux, List.filter_cons]
    cases h : r n with
    | some f => simp [h, ih]
    | none => simp [h, ih]

theorem bake_of_empty (r : Routines) (v : BakeVisual) (h : v.empty = true) :
    bake r v = (v, [], none) := by
  simp [bake, h]

theorem bake_to_bake_nil (r : Routines) (v : BakeVisual) (h : v.empty = false) :
    (bake r v).1.to_bake = [] := by
  simp [bake, h]

theorem bake_trace (r : Routines) (v : BakeVisual) (h : v.empty = false) :
    (bake r v).2.1 = (sortNames v.to_bake).filter (fun n => (r n).isSome) := by
  simp [bake, h, bakeAux_trace]

theorem bake_ret (r : Routines) (v : BakeVisual) (h : v.empty = false) :
    (bake r v).2.2 = some (decide (0 < v.to_bake.length)) := by
  simp [bake, h]

theorem draw_state (r : Routines) (v : BakeVisual) : (draw r v).1 = (bake r v).1 := by
  unfold draw
  by_cases h : (bake r v).1.empty = true
  · simp [h]
  · simp [h]

theorem draw_trace (r : Routines) (v : BakeVisual) : (draw r v).2.1 = (bake r v).2.1 := by
  unfold draw
  by_cases h : (bake r v).1.empty = true
  · simp [h]
  · simp [h]

/-- C1: a bake pass does NOT preserve names marked by a bake routine while
the pass is processing.  Concretely: on a non-empty visual whose dirty set
is `["a"]`, a declared routine for `"a"` that marks the fresh name `"z"`
runs, yet after the pass the dirty set is empty — `"z"` was dropped by the
unconditional clear at the end of the pass, so it can never reach a later
drain.  This refutes the claim that such marks are preserved for the next
drain. -/
theorem bake_drops_marks_made_during_pass :
    (bake rtC1 bvC1).1.to_bake = [] ∧ "z" ∉ (bake rtC1 bvC1).1.to_bake := by
  decide

/-- C1 (amended): after a bake pass on a non-empty visual the dirty set is
always empty — including when routines marked new names during the pass:
the read of the marked names happens at the start (a snapshot) but the
clear happens at the end, so marks made during the pass are discarded, not
preserved. -/
theorem bake_leaves_dirty_set_empty (r : Routines) (v : BakeVisual)
    (h : v.empty = false) : (bake r v).1.to_bake = [] :=
  bake_to_bake_nil r v h

/-- C1 witness: the amended theorem at the concrete counterexample state. -/
theorem bake_leaves_dirty_set_empty_witness :
    bvC1.empty = false ∧ (bake rtC1 bvC1).1.to_bake = [] :=
  ⟨rfl, bake_leaves_dirty_set_empty rtC1 bvC1 rfl⟩

/-- C5: an empty visual's `draw` issues no GPU draw call and leaves the state
(and in particular the pending dirty names) untouched; after the empty flag
is cleared the next `draw` performs the pending bake: it invokes the routine
of every pending name that has one, in sorted order, and drains the set. -/
theorem draw_empty_gating (r : Routines) (v : BakeVisual) (h : v.empty = true) :
    draw r v = (v, [], false)
    ∧ (draw r (v.set_empty false)).2.1
        = (sortNames v.to_bake).filter (fun n => (r n).isSome)
    ∧ (draw r (v.set_empty false)).1.to_bake = [] := by
  refine ⟨?_, ?_, ?_⟩
  · unfold draw
    rw [bake_of_empty r v h]
    simp [h]
  · rw [draw_trace, bake_trace r _ rfl]
    rfl
  · rw [draw_state, bake_to_bake_nil r _ rfl]

/-- C5 witness: the theorem at a concrete empty visual with pending marks. -/
theorem draw_empty_gating_witness :
    bvC5e.empty = true
    ∧ (draw rtOnlyA bvC5e = (bvC5e, [], false)
       ∧ (draw rtOnlyA (bvC5e.set_empty false)).2.1
           = (sortNames bvC5e.to_bake).filter (fun n => (rtOnlyA n).isSome)
       ∧ (draw rtOnlyA (bvC5e.set_empty false)).1.to_bake = []) :=
  ⟨rfl, draw_empty_gating rtOnlyA bvC5e rfl⟩

/-- C6: one bake pass on a non-empty visual invokes the per-name routines in
lexicographic (code-point) order of the marked names, silently skipping
names with no declared routine (the trace is exactly the sorted marked
names filtered to those with a routine, and it is sorted); the pass returns
whether any names were pending (`n_bake > 0`, the drained work).  In the
scenario where `"color"` then `"spikes"` are marked, the routines run as
`["color", "spikes"]`. -/
theorem bake_lexicographic_order_and_skip :
    (∀ (r : Routines) (v : BakeVisual), v.empty = false →
      (bake r v).2.1 = (sortNames v.to_bake).filter (fun n => (r n).isSome)
      ∧ List.Sorted (fun a b => strLe a b = true) (bake r v).2.1
      ∧ (bake r v).2.2 = some (decide (0 < v.to_bake.length)))
    ∧ (bake rtAll bvC6).2.1 = ["color", "spikes"] := by
  constructor
  · intro r v h
    refine ⟨bake_trace r v h, ?_, bake_ret r v h⟩
    rw [bake_trace r v h]
    exact List.Pairwise.filter _ (List.sorted_insertionSort _ _)
  · decide

/-- C6 witness: the universally quantified part at the scenario visual. -/
theorem bake_lexicographic_order_and_skip_witness :
    bvC6.empty = false
    ∧ ((bake rtAll bvC6).2.1 = (sortNames bvC6.to_bake).filter (fun n => (rtAll n).isSome)
       ∧ List.Sorted (fun a b => strLe a b = true) (bake rtAll bvC6).2.1
       ∧ (bake rtAll bvC6).2.2 = some (decide (0 < bvC6.to_bake.length))) :=
  ⟨rfl, bake_lexicographic_order_and_skip.1 rtAll bvC6 rfl⟩

theorem spike_ids_prop_base (v : SpikeVisual) : (v.spike_ids_prop).1.base = v.base := by
  unfold SpikeVisual.spike_ids_prop
  cases v.spike_ids <;> rfl

theorem spike_ids_prop_cluster_colors (v : SpikeVisual) :
    (v.spike_ids_prop).1.cluster_colors = v.cluster_colors := by
  unfold SpikeVisual.spike_ids_prop
  cases v.spike_ids <;> rfl

theorem n_clusters_prop_base (v : SpikeVisual) : (v.n_clusters_prop).1.base = v.base :=
  spike_ids_prop_base v

theorem n_clusters_prop_cluster_colors (v : SpikeVisual) :
    (v.n_clusters_prop).1.cluster_colors = v.cluster_colors :=
  spike_ids_prop_cluster_colors v

/-- C2: the attribute setters are NOT all-or-nothing.  Concretely: on a
visual with one displayed cluster and a previously stored one-row color
array, setting `cluster_colors` to a two-row array fails the length assert
(`ShapeMismatch`), yet the stored `cluster_colors` value has already been
replaced by the offending array — the store happens before the check, so
"mutates nothing" is false. -/
theorem set_cluster_colors_mutates_before_check :
    (svC2.set_cluster_colors { shape := [2, 4] }).2 = some SetterErr.shapeMismatch
    ∧ (svC2.set_cluster_colors { shape := [2, 4] }).1.cluster_colors
        = some { shape := [2, 4] }
    ∧ (svC2.set_cluster_colors { shape := [2, 4] }).1.cluster_colors
        ≠ svC2.cluster_colors := by
  decide

/-- C2 (amended): a setter given an array violating the declared shape
constraints fails with the `ShapeMismatch` condition and never marks the
dirty set; the `masks` setter with an established row count aborts before
any mutation (all-or-nothing holds there), but the `cluster_colors` setter
stores the offending value before its length check, so on failure the
stored attribute has already changed. -/
theorem setters_shape_mismatch_behavior :
    (∀ (v : SpikeVisual) (value : NDArray) (n : ℕ), v.n_spikes = some n →
      value.rows ≠ n → v.set_masks value = (v, some SetterErr.shapeMismatch))
    ∧ (∀ (v : SpikeVisual) (value : NDArray) (e : SetterErr),
      (v.set_cluster_colors value).2 = some e →
      (v.set_cluster_colors value).1.base.to_bake = v.base.to_bake
      ∧ (v.set_cluster_colors value).1.cluster_colors = some value) := by
  constructor
  · intro v value n hn hr
    unfold SpikeVisual.set_masks SpikeVisual.set_or_assert_n_spikes
    rw [hn]
    simp [hn, hr]
  · intro v value e he
    unfold SpikeVisual.set_cluster_colors at *
    by_cases hc : value.rows
        = ({ v with cluster_colors := some value } : SpikeVisual).n_clusters_prop.2
    · simp only [hc] at he
      simp at he
    · simp only [hc, if_neg, ite_not, if_true, ne_eq, not_false_iff] at he ⊢
      refine ⟨?_, ?_⟩
      · rw [n_clusters_prop_base]
      · rw [n_clusters_prop_cluster_colors]

/-- C2 witness: the masks part at the spec's scenario-4 numbers (a 100-by-3
array against an established row count of 50), and the cluster-colors part
at the counterexample state. -/
theorem setters_shape_mismatch_behavior_witness :
    (svMasks.n_spikes = some 50
     ∧ ({ shape := [100, 3] } : NDArray).rows ≠ 50
     ∧ svMasks.set_masks { shape := [100, 3] } = (svMasks, some SetterErr.shapeMismatch))
    ∧ ((svC2.set_cluster_colors { shape := [2, 4] }).2 = some SetterErr.shapeMismatch
       ∧ (svC2.set_cluster_colors { shape := [2, 4] }).1.base.to_bake
           = svC2.base.to_bake
       ∧ (svC2.set_cluster_colors { shape := [2, 4] }).1.cluster_colors
           = some { shape := [2, 4] }) :=
  ⟨⟨rfl, by decide,
    setters_shape_mismatch_behavior.1 svMasks { shape := [100, 3] } 50 rfl (by decide)⟩,
   by decide,
   setters_shape_mismatch_behavior.2 svC2 { shape := [2, 4] } SetterErr.shapeMismatch
     (by decide)⟩

theorem set_zoom_zoom (v : PanZoom) (z : ℝ) :
    (v.set_zoom z).zoom = max (min z v.zmax) v.zmin := by
  unfold PanZoom.set_zoom
  by_cases h : v.canvas_attached = false <;> simp [h]

theorem set_zoom_zmin (v : PanZoom) (z : ℝ) : (v.set_zoom z).zmin = v.zmin := by
  unfold PanZoom.set_zoom
  by_cases h : v.canvas_attached = false <;> simp [h]

theorem set_zoom_zmax (v : PanZoom) (z : ℝ) : (v.set_zoom z).zmax = v.zmax := by
  unfold PanZoom.set_zoom
  by_cases h : v.canvas_attached = false <;> simp [h]

theorem set_zoom_pan (v : PanZoom) (z : ℝ) : (v.set_zoom z).pan = v.pan := by
  unfold PanZoom.set_zoom
  by_cases h : v.canvas_attached = false <;> simp [h]

theorem set_zoom_zoom_to_pointer (v : PanZoom) (z : ℝ) :
    (v.set_zoom z).zoom_to_pointer = v.zoom_to_pointer := by
  unfold PanZoom.set_zoom
  by_cases h : v.canvas_attached = false <;> simp [h]

theorem set_zoom_aspect (v : PanZoom) (z : ℝ) : (v.set_zoom z).aspect = v.aspect := by
  unfold PanZoom.set_zoom
  by_cases h : v.canvas_attached = false <;> simp [h]

theorem set_zoom_canvas_aspect (v : PanZoom) (z : ℝ) :
    (v.set_zoom z).canvas_aspect = v.canvas_aspect := by
  unfold PanZoom.set_zoom
  by_cases h : v.canvas_attached = false <;> simp [h]

theorem set_zoom_effAspect (v : PanZoom) (z : ℝ) :
    (v.set_zoom z).effAspect = v.effAspect := by
  unfold PanZoom.effAspect
  rw [set_zoom_aspect, set_zoom_canvas_aspect]

theorem set_zoom_unattached (v : PanZoom) (z : ℝ) (h : v.canvas_attached = false) :
    v.set_zoom z = { v with zoom := max (min z v.zmax) v.zmin } := by
  unfold PanZoom.set_zoom
  simp [h]

theorem set_pan_pan (v : PanZoom) (p : ℝ × ℝ) : (v.set_pan p).pan = p := rfl

theorem set_pan_zoom (v : PanZoom) (p : ℝ × ℝ) : (v.set_pan p).zoom = v.zoom := rfl

/-- C3: the zoom setter clamps every input into `[zmin, zmax]`: on any
transform whose bounds are consistent (`zmin ≤ zmax`) the stored zoom
satisfies the invariant after the call, and the scenario-1 transform
(`zoom=1, zmin=0.1, zmax=10`) ends with `zoom = 10` after `set_zoom 50`;
the setter is total — out-of-range values are clamped, never rejected. -/
theorem set_zoom_respects_bounds :
    (∀ (v : PanZoom) (z : ℝ), v.zmin ≤ v.zmax →
      (v.set_zoom z).zmin ≤ (v.set_zoom z).zoom
      ∧ (v.set_zoom z).zoom ≤ (v.set_zoom z).zmax)
    ∧ (pzScenario1.set_zoom 50).zoom = 10 := by
  constructor
  · intro v z h
    rw [set_zoom_zoom, set_zoom_zmin, set_zoom_zmax]
    exact ⟨le_max_right _ _, max_le (min_le_right _ _) h⟩
  · rw [set_zoom_zoom]
    norm_num [pzScenario1, PanZoom.init, min_def, max_def]

/-- C3 witness: the clamped-bounds invariant at the scenario-1 transform. -/
theorem set_zoom_respects_bounds_witness :
    pzScenario1.zmin ≤ pzScenario1.zmax
    ∧ ((pzScenario1.set_zoom 50).zmin ≤ (pzScenario1.set_zoom 50).zoom
       ∧ (pzScenario1.set_zoom 50).zoom ≤ (pzScenario1.set_zoom 50).zmax) :=
  ⟨by norm_num [pzScenario1, PanZoom.init],
   set_zoom_respects_bounds.1 pzScenario1 50
     (by norm_num [pzScenario1, PanZoom.init])⟩

/-- C4: after any sequence of zoom-bound setter calls in any order with any
values, `zmin ≤ zmax` holds after every call: whatever state any earlier
calls produced, the next call re-establishes the invariant (the `zmin`
setter clamps to at most the current `zmax`, the `zmax` setter to at least
the current `zmin`). -/
theorem zoom_bounds_invariant_after_every_call (v : PanZoom) (l : List BoundsCall)
    (c : BoundsCall) :
    (applyBoundsCall (applyBoundsCalls v l) c).zmin
      ≤ (applyBoundsCall (applyBoundsCalls v l) c).zmax := by
  cases c with
  | setZmin x =>
    simp [applyBoundsCall, PanZoom.set_zmin]
  | setZmax x =>
    simp [applyBoundsCall, PanZoom.set_zmax]

/-- C10: the constructor stores `pan`, `zoom`, `zmin` and `zmax` verbatim with
no clamping or validation; in particular a transform constructed with
`zoom=50, zmax=10` starts with `zoom = 50`, above its own `zmax`. -/
theorem init_stores_arguments_verbatim :
    (∀ (a : Option ℝ) (p : ℝ × ℝ) (z zn zx : ℝ),
      (PanZoom.init a p z zn zx).pan = p ∧ (PanZoom.init a p z zn zx).zoom = z
      ∧ (PanZoom.init a p z zn zx).zmin = zn ∧ (PanZoom.init a p z zn zx).zmax = zx)
    ∧ (PanZoom.init (some 1) (0, 0) 50 (1 / 100000) 10).zoom = 50
    ∧ (PanZoom.init (some 1) (0, 0) 50 (1 / 100000) 10).zmax
        < (PanZoom.init (some 1) (0, 0) 50 (1 / 100000) 10).zoom :=
  ⟨fun _ _ _ _ _ => ⟨rfl, rfl, rfl, rfl⟩, rfl, by norm_num [PanZoom.init]⟩

theorem attach_programs (v : PanZoom) (size : ℝ × ℝ) :
    (v.attach size).programs = v.programs := by
  unfold PanZoom.attach
  by_cases h : (1 : ℝ) < size.1 / size.2 <;> simp [h]

theorem attach_zoom (v : PanZoom) (size : ℝ × ℝ) : (v.attach size).zoom = v.zoom := by
  unfold PanZoom.attach
  by_cases h : (1 : ℝ) < size.1 / size.2 <;> simp [h]

theorem attach_u_zoom (v : PanZoom) (size : ℝ × ℝ) :
    (v.attach size).u_zoom
      = ((v.attach size).zoom * (v.attach size).effAspect.1,
         (v.attach size).zoom * (v.attach size).effAspect.2) := by
  unfold PanZoom.attach PanZoom.effAspect
  cases v.aspect <;> by_cases h : (1 : ℝ) < size.1 / size.2 <;> simp [h]

/-- C9 (amended): while unattached, the zoom setter stores the clamped value
and pushes no uniform; at attachment the transform's CACHED effective zoom
uniform is recomputed from the zoom stored while unattached — but `attach`
writes no program uniform, so programs registered before attachment keep
their previous uniform value until the next push (only programs registered
after attachment receive the deferred value, since `add` pushes the cache). -/
theorem set_zoom_deferred_until_attach (v : PanZoom) (z : ℝ) (size : ℝ × ℝ)
    (h : v.canvas_attached = false) :
    v.set_zoom z = { v with zoom := max (min z v.zmax) v.zmin }
    ∧ ((v.set_zoom z).attach size).u_zoom
        = (max (min z v.zmax) v.zmin * ((v.set_zoom z).attach size).effAspect.1,
           max (min z v.zmax) v.zmin * ((v.set_zoom z).attach size).effAspect.2)
    ∧ ((v.set_zoom z).attach size).programs = v.programs := by
  refine ⟨set_zoom_unattached v z h, ?_, ?_⟩
  · rw [attach_u_zoom, attach_zoom, set_zoom_zoom]
  · rw [attach_programs, set_zoom_unattached v z h]

/-- C9 witness: the deferred-push behaviour at a fresh transform. -/
theorem set_zoom_deferred_until_attach_witness :
    pzC9.canvas_attached = false
    ∧ (pzC9.set_zoom 2 = { pzC9 with zoom := max (min 2 pzC9.zmax) pzC9.zmin }
       ∧ ((pzC9.set_zoom 2).attach (1, 1)).u_zoom
           = (max (min 2 pzC9.zmax) pzC9.zmin
                * ((pzC9.set_zoom 2).attach (1, 1)).effAspect.1,
              max (min 2 pzC9.zmax) pzC9.zmin
                * ((pzC9.set_zoom 2).attach (1, 1)).effAspect.2)
       ∧ ((pzC9.set_zoom 2).attach (1, 1)).programs = pzC9.programs) :=
  ⟨rfl, set_zoom_deferred_until_attach pzC9 2 (1, 1) rfl⟩

/-- C9: the claim's consequence "after attach the effective zoom uniform seen
by registered programs reflects the zoom stored while unattached" is false.
Concretely: register a program on a fresh transform (it receives the
cached uniform `(1, 1)`), set zoom to `2` while unattached (stored, nothing
pushed), then attach; the transform's stored zoom is `2` and its cached
effective uniform is `(2, 2)`, but the registered program still holds
`(1, 1)` — `attach` pushes no uniform to already-registered programs. -/
theorem attach_leaves_registered_programs_stale :
    (((pzC9.add progC9).set_zoom 2).attach (1, 1)).zoom = 2
    ∧ (((pzC9.add progC9).set_zoom 2).attach (1, 1)).u_zoom = (2, 2)
    ∧ ((((pzC9.add progC9).set_zoom 2).attach (1, 1)).programs.map
        (fun p => p.u_zoom)) = [(1, 1)]
    ∧ ((1, 1) : ℝ × ℝ) ≠ ((2, 2) : ℝ × ℝ) := by
  refine ⟨?_, ?_, ?_, ?_⟩
  · rw [attach_zoom, set_zoom_zoom]
    norm_num [pzC9, PanZoom.init, PanZoom.add, min_def, max_def]
  · rw [attach_u_zoom, attach_zoom, set_zoom_zoom]
    norm_num [pzC9, progC9, PanZoom.init, PanZoom.add, PanZoom.attach,
      PanZoom.set_zoom, PanZoom.effAspect, min_def, max_def]
  · rw [attach_programs]
    norm_num [pzC9, progC9, PanZoom.init, PanZoom.add, PanZoom.set_zoom]
  · simp only [ne_eq, Prod.mk.injEq, not_and]
    intro h1
    norm_num at h1

theorem on_mouse_wheel_eq (v : PanZoom) (delta : ℝ) (pos : ℝ × ℝ) :
    v.on_mouse_wheel delta pos =
      if v.zoom_to_pointer = true then
        (v.set_zoom (v.zoom * Real.exp (2.5 * (Real.sign delta * 0.05)))).set_pan
          (v.pan.1 - (v.normalize_grid pos).1 *
             (1 / (v.zoom * v.effAspect.1)
              - 1 / (v.zoom * Real.exp (2.5 * (Real.sign delta * 0.05)) * v.effAspect.1)),
           v.pan.2 + (v.normalize_grid pos).2 *
             (1 / (v.zoom * v.effAspect.2)
              - 1 / (v.zoom * Real.exp (2.5 * (Real.sign delta * 0.05)) * v.effAspect.2)))
      else v.set_zoom (v.zoom * Real.exp (2.5 * (Real.sign delta * 0.05))) := by
  simp only [PanZoom.on_mouse_wheel]
  rw [set_zoom_zoom_to_pointer, set_zoom_effAspect]

theorem wheel_pan (v : PanZoom) (delta : ℝ) (pos : ℝ × ℝ)
    (h : v.zoom_to_pointer = true) :
    (v.on_mouse_wheel delta pos).pan =
      (v.pan.1 - (v.normalize_grid pos).1 *
         (1 / (v.zoom * v.effAspect.1)
          - 1 / (v.zoom * Real.exp (2.5 * (Real.sign delta * 0.05)) * v.effAspect.1)),
       v.pan.2 + (v.normalize_grid pos).2 *
         (1 / (v.zoom * v.effAspect.2)
          - 1 / (v.zoom * Real.exp (2.5 * (Real.sign delta * 0.05)) * v.effAspect.2))) := by
  rw [on_mouse_wheel_eq, if_pos h, set_pan_pan]

theorem wheel_pan_no_pointer (v : PanZoom) (delta : ℝ) (pos : ℝ × ℝ)
    (h : v.zoom_to_pointer = false) :
    (v.on_mouse_wheel delta pos).pan = v.pan := by
  rw [on_mouse_wheel_eq, if_neg (by simp [h]), set_zoom_pan]

theorem wheel_zoom (v : PanZoom) (delta : ℝ) (pos : ℝ × ℝ) :
    (v.on_mouse_wheel delta pos).zoom
      = max (min (v.zoom * Real.exp (2.5 * (Real.sign delta * 0.05))) v.zmax) v.zmin := by
  rw [on_mouse_wheel_eq]
  by_cases h : v.zoom_to_pointer = true
  · rw [if_pos h, set_pan_zoom, set_zoom_zoom]
  · rw [if_neg h, set_zoom_zoom]

theorem normalize_grid_center (v : PanZoom) (hodd : Odd v.n_rows)
    (hw : v.width ≠ 0) (hh : v.height ≠ 0) :
    v.normalize_grid (v.width / 2, v.height / 2) = (0, 0) := by
  obtain ⟨k, hk⟩ := hodd
  have hfr : ∀ w : ℝ, w ≠ 0 → Int.fract (w / 2 / w * (v.n_rows : ℝ)) = 1 / 2 := by
    intro w hw0
    have h2 : w / 2 / w * (v.n_rows : ℝ) = ((k : ℤ) : ℝ) + 1 / 2 := by
      rw [hk]
      push_cast
      field_simp
      ring
    rw [h2, Int.fract_int_add, Int.fract_eq_self]
    constructor <;> norm_num
  simp only [PanZoom.normalize_grid]
  rw [hfr v.width hw, hfr v.height hh]
  norm_num

theorem one_lt_exp_eighth : (1 : ℝ) < Real.exp (1 / 8) := by
  have h0 := Real.exp_lt_exp.mpr (show (0 : ℝ) < 1 / 8 by norm_num)
  rwa [Real.exp_zero] at h0

theorem inv_exp_eighth_lt_one : 1 / Real.exp (1 / 8) < 1 := by
  rw [div_lt_one (lt_trans one_pos one_lt_exp_eighth)]
  exact one_lt_exp_eighth

theorem wheel_mult_one : (2.5 : ℝ) * (Real.sign (1 : ℝ) * 0.05) = 1 / 8 := by
  rw [Real.sign_of_pos one_pos]
  norm_num

/-- C7 (amended): with `zoom_to_pointer` enabled, the wheel handler multiplies
zoom by `exp(2.5 * sign(delta) * 0.05)` via the clamping zoom setter, and
adjusts pan per axis by the grid-normalized pointer times
`1/zoom_old - 1/zoom_new` (subtracted on x, added on y) — where both zoom
vectors are aspect-corrected but `zoom_new` is the UNCLAMPED candidate
`zoom * exp(...)`, not the clamped stored zoom; the two coincide exactly
when the candidate lies within `[zmin, zmax]`. -/
theorem wheel_zoom_and_pan_formula (v : PanZoom) (delta : ℝ) (pos : ℝ × ℝ)
    (h : v.zoom_to_pointer = true) :
    (v.on_mouse_wheel delta pos).zoom
      = max (min (v.zoom * Real.exp (2.5 * (Real.sign delta * 0.05))) v.zmax) v.zmin
    ∧ (v.on_mouse_wheel delta pos).pan
      = (v.pan.1 - (v.normalize_grid pos).1 *
           (1 / (v.zoom * v.effAspect.1)
            - 1 / (v.zoom * Real.exp (2.5 * (Real.sign delta * 0.05)) * v.effAspect.1)),
         v.pan.2 + (v.normalize_grid pos).2 *
           (1 / (v.zoom * v.effAspect.2)
            - 1 / (v.zoom * Real.exp (2.5 * (Real.sign delta * 0.05)) * v.effAspect.2))) :=
  ⟨wheel_zoom v delta pos, wheel_pan v delta pos h⟩

/-- C7 witness: the amended formula at the counterexample transform. -/
theorem wheel_zoom_and_pan_formula_witness :
    pzC7.zoom_to_pointer = true
    ∧ ((pzC7.on_mouse_wheel 1 (3 / 4, 1 / 2)).zoom
        = max (min (pzC7.zoom * Real.exp (2.5 * (Real.sign (1 : ℝ) * 0.05))) pzC7.zmax)
            pzC7.zmin
       ∧ (pzC7.on_mouse_wheel 1 (3 / 4, 1 / 2)).pan
        = (pzC7.pan.1 - (pzC7.normalize_grid (3 / 4, 1 / 2)).1 *
             (1 / (pzC7.zoom * pzC7.effAspect.1)
              - 1 / (pzC7.zoom * Real.exp (2.5 * (Real.sign (1 : ℝ) * 0.05))
                      * pzC7.effAspect.1)),
           pzC7.pan.2 + (pzC7.normalize_grid (3 / 4, 1 / 2)).2 *
             (1 / (pzC7.zoom * pzC7.effAspect.2)
              - 1 / (pzC7.zoom * Real.exp (2.5 * (Real.sign (1 : ℝ) * 0.05))
                      * pzC7.effAspect.2)))) :=
  ⟨rfl, wheel_zoom_and_pan_formula pzC7 1 (3 / 4, 1 / 2) rfl⟩

/-- C7: the claim's reading of the pan correction — `zoom_new` taken as the
post-`set_zoom` clamped stored zoom (`specWheelPan`) — disagrees with the
code.  Concretely: on a transform with `zoom = zmax = 1`, a wheel-up event
at pointer `(3/4, 1/2)` leaves the stored zoom clamped at `1`, so the
claim's formula gives a zero pan correction, but the code corrects pan
using the unclamped candidate `exp(1/8) > 1` and moves it. -/
theorem wheel_pan_differs_from_spec_formula :
    (pzC7.on_mouse_wheel 1 (3 / 4, 1 / 2)).pan ≠ specWheelPan pzC7 1 (3 / 4, 1 / 2) := by
  have hfr34 : Int.fract ((3 : ℝ) / 4) = 3 / 4 := by
    rw [Int.fract_eq_self]
    constructor <;> norm_num
  have hfr12 : Int.fract ((1 : ℝ) / 2) = 1 / 2 := by
    rw [Int.fract_eq_self]
    constructor <;> norm_num
  have hng : pzC7.normalize_grid (3 / 4, 1 / 2) = (1 / 2, 0) := by
    simp only [PanZoom.normalize_grid, pzC7]
    norm_num [hfr34, hfr12]
  have hpanL : (pzC7.on_mouse_wheel 1 (3 / 4, 1 / 2)).pan
      = (-(1 / 2 * (1 - 1 / Real.exp (1 / 8))), 0) := by
    rw [wheel_pan pzC7 1 (3 / 4, 1 / 2) rfl, hng, wheel_mult_one]
    simp only [pzC7, PanZoom.effAspect]
    norm_num
  have hclamp : max (min ((1 : ℝ) * Real.exp (1 / 8)) 1) (1 / 2) = 1 := by
    rw [one_mul, min_eq_right one_lt_exp_eighth.le,
      max_eq_left (by norm_num : (1 : ℝ) / 2 ≤ 1)]
  have hspec : specWheelPan pzC7 1 (3 / 4, 1 / 2) = (0, 0) := by
    simp only [specWheelPan]
    rw [hng, wheel_mult_one, set_zoom_zoom]
    simp only [pzC7, PanZoom.effAspect]
    rw [hclamp]
    norm_num
  rw [hpanL, hspec]
  intro heq
  have h1 : -(1 / 2 * (1 - 1 / Real.exp (1 / 8))) = 0 := congrArg Prod.fst heq
  have h2 := inv_exp_eighth_lt_one
  linarith

/-- C8: with an EVEN grid row count the wheel-zoom centered exactly at the
canvas center does NOT leave pan unchanged.  Concretely: `n_rows = 2` on a
2-by-2 canvas; the center pixel `(1, 1)` grid-normalizes to `(-1/2, -1/2)`
(not zero — the center of the canvas is a cell corner, whose cell-local
coordinate is `-1`), so an unclamped wheel-up moves pan. -/
theorem wheel_center_moves_pan_even_rows :
    (pzC8.width / 2, pzC8.height / 2) = ((1 : ℝ), 1)
    ∧ (pzC8.on_mouse_wheel 1 (1, 1)).pan ≠ pzC8.pan := by
  constructor
  · norm_num [pzC8]
  · have hng : pzC8.normalize_grid (1, 1) = (-(1 / 2), -(1 / 2)) := by
      simp only [PanZoom.normalize_grid, pzC8]
      norm_num [Int.fract_one]
    have hpanL : (pzC8.on_mouse_wheel 1 (1, 1)).pan
        = (1 / 2 * (1 - 1 / Real.exp (1 / 8)),
           -(1 / 2 * (1 - 1 / Real.exp (1 / 8)))) := by
      rw [wheel_pan pzC8 1 (1, 1) rfl, hng, wheel_mult_one]
      simp only [pzC8, PanZoom.effAspect]
      norm_num
    rw [hpanL]
    intro heq
    have h1 : 1 / 2 * (1 - 1 / Real.exp (1 / 8)) = (0 : ℝ) := by
      have := congrArg Prod.fst heq
      simpa [pzC8] using this
    have h2 := inv_exp_eighth_lt_one
    linarith

/-- C8 (amended): for every attached transform with an ODD grid row count
(in particular the default single row) and nonzero canvas dimensions, a
wheel-zoom whose pointer is exactly the canvas center leaves `pan`
unchanged: the grid-normalized center is zero, so the correction term
vanishes (and with `zoom_to_pointer` off pan is never touched). -/
theorem wheel_center_pan_unchanged_odd_rows (v : PanZoom) (delta : ℝ)
    (hodd : Odd v.n_rows) (hw : v.width ≠ 0) (hh : v.height ≠ 0) :
    (v.on_mouse_wheel delta (v.width / 2, v.height / 2)).pan = v.pan := by
  cases htp : v.zoom_to_pointer with
  | true =>
    rw [wheel_pan v delta _ htp, normalize_grid_center v hodd hw hh]
    simp
  | false => rw [wheel_pan_no_pointer v delta _ htp]

/-- C8 witness: the amended theorem at an attached transform with one grid
row and a 2-by-2 canvas. -/
theorem wheel_center_pan_unchanged_odd_rows_witness :
    Odd pzC8w.n_rows ∧ pzC8w.width ≠ 0 ∧ pzC8w.height ≠ 0
    ∧ (pzC8w.on_mouse_wheel 1 (pzC8w.width / 2, pzC8w.height / 2)).pan = pzC8w.pan :=
  ⟨Nat.odd_iff.mpr rfl, by norm_num [pzC8w], by norm_num [pzC8w],
   wheel_center_pan_unchanged_odd_rows pzC8w 1 (Nat.odd_iff.mpr rfl)
     (by norm_num [pzC8w]) (by norm_num [pzC8w])⟩

end Phy
